import Mathlib

/-!
Verification development for the Sound-Clash real-time game engine
(`backend/websocket-service`).  The Python services are shallowly embedded:

* `alGet` / `alSet` / `alErase` model Python `dict` operations on
  insertion-ordered association lists (`d.get`, `d[k] = v` upsert,
  `del d[k]`);
* `datetime.now()` is modelled by an explicit `now : Nat` parameter;
* the fallible external HTTP call in `SongSelector.select_random_song`
  is modelled by a `SelectorResponse` input, and `RoundManager.start_round`
  takes the resulting `Option SongInfo` as a parameter standing for
  `await self.song_selector.select_random_song(...)`.
-/

namespace SoundClash

/-- Python `dict.get k`: first binding of `k` in the insertion-ordered list. -/
def alGet {α : Type} (l : List (String × α)) (k : String) : Option α :=
  match l with
  | [] => none
  | (k2, v) :: rest => if k2 = k then some v else alGet rest k

/-- Python `d[k] = v`: update the binding in place if present, else append. -/
def alSet {α : Type} (l : List (String × α)) (k : String) (v : α) : List (String × α) :=
  match l with
  | [] => [(k, v)]
  | (k2, v2) :: rest => if k2 = k then (k2, v) :: rest else (k2, v2) :: alSet rest k v

/-- Python `del d[k]` / `d.pop(k, None)`: drop the binding of `k`
(dict keys are unique, so dropping every binding of `k` is the same). -/
def alErase {α : Type} (l : List (String × α)) (k : String) : List (String × α) :=
  l.filter (fun p => decide (p.1 ≠ k))

/-- Python in-place mutation of `xs[-1]`: replace the last element. -/
def setLast {α : Type} (l : List α) (a : α) : List α :=
  l.dropLast ++ [a]

/-! Data model from `models/game_state.py`. -/

/-- `GameState` enum of `models/game_state.py`. -/
inductive GameState where
  | waiting
  | playing
  | finished
deriving DecidableEq

/-- `RoundState` enum of `models/game_state.py`. -/
inductive RoundState where
  | not_started
  | song_playing
  | buzzer_locked
  | evaluating
  | completed
deriving DecidableEq

/-- `SongInfo` model of `models/game_state.py`. -/
structure SongInfo where
  id : Nat
  title : String
  artist : String
  youtube_id : String
  genres : List String := []
deriving DecidableEq

/-- `BuzzerPress` model of `models/game_state.py`. -/
structure BuzzerPress where
  team_name : String
  timestamp : Nat
  reaction_time_ms : Nat
deriving DecidableEq

/-- `TeamAnswer` model of `models/game_state.py`. -/
structure TeamAnswer where
  team_name : String
  song_name : Option String := none
  artist_name : Option String := none
  movie_tv_name : Option String := none
  submitted_at : Nat
deriving DecidableEq

/-- `RoundScore` model of `models/game_state.py`. -/
structure RoundScore where
  team_name : String
  song_correct : Bool := false
  artist_correct : Bool := false
  movie_tv_correct : Bool := false
  points_earned : Int := 0
  buzzer_timeout : Bool := false
deriving DecidableEq

/-- `RoundData` model of `models/game_state.py`. -/
structure RoundData where
  round_number : Nat
  state : RoundState := RoundState.not_started
  song : Option SongInfo := none
  song_start_time : Nat := 5
  buzzer_winner : Option String := none
  buzzer_press : Option BuzzerPress := none
  team_answer : Option TeamAnswer := none
  scores : List (String × RoundScore) := []
  started_at : Option Nat := none
  ended_at : Option Nat := none
deriving DecidableEq

/-- `GameData` model of `models/game_state.py`. -/
structure GameData where
  game_code : String
  state : GameState := GameState.waiting
  current_round : Nat := 0
  max_rounds : Nat := 10
  selected_genres : List String := []
  rounds_history : List RoundData := []
  team_scores : List (String × Int) := []
  created_at : Nat
  started_at : Option Nat := none
  finished_at : Option Nat := none
deriving DecidableEq

/-! Song selection, from `services/song_selector.py`. -/

/-- Outcome of the HTTP POST to the song-management service inside
`SongSelector.select_random_song`: either a transport-level error
(`aiohttp.ClientError` or any other exception) or a response with an HTTP
status and a decoded list of songs. -/
inductive SelectorResponse where
  | network_error
  | http (status : Nat) (data : List SongInfo)
deriving DecidableEq

/-- `SongSelector.select_random_song` (`services/song_selector.py`, lines
28-84), as a function of the HTTP outcome: on a 200 response it returns the
first song of the decoded list when nonempty, and in every other case
(exception, non-200 status, empty list) it returns `None`. -/
def select_random_song (resp : SelectorResponse) : Option SongInfo :=
  match resp with
  | SelectorResponse.network_error => none
  | SelectorResponse.http status data =>
    if status = 200 then
      match data with
      | [] => none
      | song :: _ => some song
    else none

/-! `RoundManager`, from `services/round_manager.py`.  The manager holds
`games : Dict[str, GameData]`; each method looks the game up by code and
mutates it in place, which the embedding renders by returning the method
result paired with the updated manager. -/

/-- The `RoundManager` service state (`self.games`). -/
structure RoundManager where
  games : List (String × GameData)
deriving DecidableEq

/-- `RoundManager.create_game`. -/
def RoundManager.create_game (rm : RoundManager) (game_code : String)
    (max_rounds : Nat) (selected_genres : List String) (now : Nat) :
    GameData × RoundManager :=
  let game : GameData :=
    { game_code := game_code, state := GameState.waiting, max_rounds := max_rounds,
      selected_genres := selected_genres, created_at := now }
  (game, { games := alSet rm.games game_code game })

/-- `RoundManager.get_game`. -/
def RoundManager.get_game (rm : RoundManager) (game_code : String) : Option GameData :=
  alGet rm.games game_code

/-- `RoundManager.start_game` (lines 43-58): `None` when the game is
missing; when the game is not `WAITING` it just returns the game unchanged;
otherwise it moves the game to `PLAYING` and stamps `started_at`.
There is no check on the number of teams. -/
def RoundManager.start_game (rm : RoundManager) (game_code : String) (now : Nat) :
    Option GameData × RoundManager :=
  match alGet rm.games game_code with
  | none => (none, rm)
  | some game =>
    if game.state ≠ GameState.waiting then
      (some game, rm)
    else
      let game2 := { game with state := GameState.playing, started_at := some now }
      (some game2, { games := alSet rm.games game_code game2 })

/-- The `played_song_ids` computation inside `start_round` (line 81). -/
def played_song_ids (game : GameData) : List Nat :=
  game.rounds_history.filterMap (fun r => r.song.map SongInfo.id)

/-- `RoundManager.start_round` (lines 60-105).  `songResult` stands for
`await self.song_selector.select_random_song(genres, exclude_ids)` evaluated
on `game.selected_genres` and `played_song_ids game`.  Checks: game exists,
game is `PLAYING`, `current_round < max_rounds`, and a song was obtained;
then increments `current_round` and appends a fresh `SONG_PLAYING` round.
There is no check that the previous round is completed. -/
def RoundManager.start_round (rm : RoundManager) (game_code : String)
    (songResult : Option SongInfo) (now : Nat) : Option RoundData × RoundManager :=
  match alGet rm.games game_code with
  | none => (none, rm)
  | some game =>
    if game.state ≠ GameState.playing then (none, rm)
    else if game.max_rounds ≤ game.current_round then (none, rm)
    else
      match songResult with
      | none => (none, rm)
      | some song =>
        let round_data : RoundData :=
          { round_number := game.current_round + 1, state := RoundState.song_playing,
            song := some song, started_at := some now }
        let game2 :=
          { game with current_round := game.current_round + 1,
                      rounds_history := game.rounds_history ++ [round_data] }
        (some round_data, { games := alSet rm.games game_code game2 })

/-- `RoundManager.register_buzzer_press` (lines 107-137): `False` when the
game is missing, the history is empty, or the last round is not
`SONG_PLAYING`; otherwise locks the buzzer to `team_name` and returns
`True`. -/
def RoundManager.register_buzzer_press (rm : RoundManager)
    (game_code team_name : String) (reaction_time_ms : Nat) (now : Nat) :
    Bool × RoundManager :=
  match alGet rm.games game_code with
  | none => (false, rm)
  | some game =>
    match game.rounds_history.getLast? with
    | none => (false, rm)
    | some current_round =>
      if current_round.state ≠ RoundState.song_playing then (false, rm)
      else
        let cr2 :=
          { current_round with
              state := RoundState.buzzer_locked,
              buzzer_winner := some team_name,
              buzzer_press := some { team_name := team_name, timestamp := now,
                                     reaction_time_ms := reaction_time_ms } }
        let game2 := { game with rounds_history := setLast game.rounds_history cr2 }
        (true, { games := alSet rm.games game_code game2 })

/-- `RoundManager.submit_answer` (lines 139-173): rejected unless the last
round's `buzzer_winner` is `team_name` and the round is `BUZZER_LOCKED`;
on success records the answer and moves the round to `EVALUATING`. -/
def RoundManager.submit_answer (rm : RoundManager) (game_code team_name : String)
    (song_name artist_name movie_tv_name : Option String) (now : Nat) :
    Bool × RoundManager :=
  match alGet rm.games game_code with
  | none => (false, rm)
  | some game =>
    match game.rounds_history.getLast? with
    | none => (false, rm)
    | some current_round =>
      if current_round.buzzer_winner ≠ some team_name then (false, rm)
      else if current_round.state ≠ RoundState.buzzer_locked then (false, rm)
      else
        let cr2 :=
          { current_round with
              team_answer := some { team_name := team_name, song_name := song_name,
                                    artist_name := artist_name,
                                    movie_tv_name := movie_tv_name, submitted_at := now },
              state := RoundState.evaluating }
        let game2 := { game with rounds_history := setLast game.rounds_history cr2 }
        (true, { games := alSet rm.games game_code game2 })

/-- `RoundManager.evaluate_answer` (lines 175-228): rejected unless the last
round is `EVALUATING` and has a buzzer winner; awards 10/5/5 points for
song/artist/movie correctness, records the `RoundScore` for the winner,
completes the round, and adds the points to the winner's cumulative score
(initialising it to 0 if absent). -/
def RoundManager.evaluate_answer (rm : RoundManager) (game_code : String)
    (song_correct artist_correct movie_tv_correct : Bool) (now : Nat) :
    Option RoundScore × RoundManager :=
  match alGet rm.games game_code with
  | none => (none, rm)
  | some game =>
    match game.rounds_history.getLast? with
    | none => (none, rm)
    | some current_round =>
      if current_round.state ≠ RoundState.evaluating then (none, rm)
      else
        match current_round.buzzer_winner with
        | none => (none, rm)
        | some winner =>
          let points : Int :=
            (if song_correct then 10 else 0) + (if artist_correct then 5 else 0) +
              (if movie_tv_correct then 5 else 0)
          let score : RoundScore :=
            { team_name := winner, song_correct := song_correct,
              artist_correct := artist_correct, movie_tv_correct := movie_tv_correct,
              points_earned := points }
          let cr2 :=
            { current_round with
                scores := alSet current_round.scores winner score,
                state := RoundState.completed, ended_at := some now }
          let ts1 :=
            if (alGet game.team_scores winner).isNone then alSet game.team_scores winner 0
            else game.team_scores
          let ts2 := alSet ts1 winner ((alGet ts1 winner).getD 0 + points)
          let game2 :=
            { game with rounds_history := setLast game.rounds_history cr2,
                        team_scores := ts2 }
          (some score, { games := alSet rm.games game_code game2 })

/-- Result dict of `RoundManager.end_game`. -/
structure EndGameResult where
  game_code : String
  winner : Option String
  scores : List (String × Int)
  total_rounds : Nat
deriving DecidableEq

/-- The winner scan of `RoundManager.end_game` (lines 242-249):
`winner = None; max_score = -1; for team, score in items: if score >
max_score: winner, max_score = team, score`. -/
def winnerScan (scores : List (String × Int)) : Option String × Int :=
  scores.foldl (fun acc p => if acc.2 < p.2 then (some p.1, p.2) else acc)
    ((none : Option String), (-1 : Int))

/-- `RoundManager.end_game` (lines 230-259): moves the game to `FINISHED`
(whatever state it was in), and reports as winner the result of the
`winnerScan` over `team_scores` in insertion order. -/
def RoundManager.end_game (rm : RoundManager) (game_code : String) (now : Nat) :
    Option EndGameResult × RoundManager :=
  match alGet rm.games game_code with
  | none => (none, rm)
  | some game =>
    let game2 := { game with state := GameState.finished, finished_at := some now }
    let result : EndGameResult :=
      { game_code := game_code, winner := (winnerScan game.team_scores).1,
        scores := game.team_scores, total_rounds := game.current_round }
    (some result, { games := alSet rm.games game_code game2 })

/-- `RoundManager.handle_timeout` (lines 261-288): no state precondition at
all; when the last round has a buzzer winner it records a `buzzer_timeout`
`RoundScore` of `-2` for that team and subtracts 2 from the cumulative
score; in all cases it marks the last round `COMPLETED`. -/
def RoundManager.handle_timeout (rm : RoundManager) (game_code : String) (now : Nat) :
    Bool × RoundManager :=
  match alGet rm.games game_code with
  | none => (false, rm)
  | some game =>
    match game.rounds_history.getLast? with
    | none => (false, rm)
    | some current_round =>
      match current_round.buzzer_winner with
      | some winner =>
        let score : RoundScore :=
          { team_name := winner, buzzer_timeout := true, points_earned := -2 }
        let cr2 :=
          { current_round with
              scores := alSet current_round.scores winner score,
              state := RoundState.completed, ended_at := some now }
        let ts1 :=
          if (alGet game.team_scores winner).isNone then alSet game.team_scores winner 0
          else game.team_scores
        let ts2 := alSet ts1 winner ((alGet ts1 winner).getD 0 - 2)
        let game2 :=
          { game with rounds_history := setLast game.rounds_history cr2,
                      team_scores := ts2 }
        (true, { games := alSet rm.games game_code game2 })
      | none =>
        let cr2 :=
          { current_round with state := RoundState.completed, ended_at := some now }
        let game2 := { game with rounds_history := setLast game.rounds_history cr2 }
        (true, { games := alSet rm.games game_code game2 })

/-! Team-management models from `models/team_models.py` (the handler stack
uses its own `GameState` enum, distinct from the round manager's). -/

namespace TeamModels

/-- `ConnectionStatus` enum of `models/team_models.py`. -/
inductive ConnectionStatus where
  | active
  | disconnected
  | reconnecting
deriving DecidableEq

/-- `GameState` enum of `models/team_models.py`. -/
inductive GameState where
  | waiting
  | in_progress
  | completed
  | paused
deriving DecidableEq

/-- `GameRoom` model of `models/team_models.py`. -/
structure GameRoom where
  game_code : String
  teams : List String := []
  game_state : GameState := GameState.waiting
  max_teams : Nat := 8
deriving DecidableEq

/-- `GameRoom.add_team`: append the team when it is new and the room is
under `max_teams`; `none` models the `False` return (no mutation). -/
def GameRoom.add_team (room : GameRoom) (team_name : String) : Option GameRoom :=
  if team_name ∉ room.teams ∧ room.teams.length < room.max_teams then
    some { room with teams := room.teams ++ [team_name] }
  else none

/-- `TeamJoinResponse` model of `models/team_models.py`. -/
structure TeamJoinResponse where
  success : Bool
  message : String
  team_name : Option String := none
  teams_in_room : List String := []
  game_state : GameState := GameState.waiting
deriving DecidableEq

end TeamModels

/-! `ConnectionManager`, from `handlers/connection_manager.py`.  WebSocket
objects are modelled by `Nat` handles (Python `id(websocket)` values). -/

/-- The `ConnectionManager` state (its five dict indexes). -/
structure ConnectionManager where
  active_connections : List (String × List (String × Nat)) := []
  team_connections : List (String × List (String × String)) := []
  connection_registry : List (String × (String × String × Nat)) := []
  manager_connections : List (String × String) := []
  last_ping : List (String × Nat) := []
deriving DecidableEq

/-- The connection id built in `connect_team`
(the f-string on line 40). -/
def mkTeamConnId (game_code team_name : String) (ws : Nat) : String :=
  game_code ++ "_" ++ team_name ++ "_" ++ toString ws

/-- The connection id built in `connect_manager` (line 60). -/
def mkManagerConnId (game_code : String) (ws : Nat) : String :=
  game_code ++ "_manager_" ++ toString ws

/-- `ConnectionManager.connect_team` (lines 35-54): unconditionally stores
the new connection under `team_connections[game_code][team_name]`, even
when that team name is already bound to a live connection (the old binding
is overwritten).  The `none` result models the `KeyError` raised when the
game code is present in `active_connections` but absent from
`team_connections` (only `connect_manager` initialises the former). -/
def ConnectionManager.connect_team (cm : ConnectionManager)
    (game_code team_name : String) (ws : Nat) (now : Nat) :
    Option (String × ConnectionManager) :=
  let connection_id := mkTeamConnId game_code team_name ws
  let cm1 :=
    if (alGet cm.active_connections game_code).isNone then
      { cm with active_connections := alSet cm.active_connections game_code [],
                team_connections := alSet cm.team_connections game_code [] }
    else cm
  let ac :=
    alSet cm1.active_connections game_code
      (alSet ((alGet cm1.active_connections game_code).getD []) connection_id ws)
  match alGet cm1.team_connections game_code with
  | none => none
  | some tmap =>
    some (connection_id,
      { cm1 with
          active_connections := ac,
          team_connections :=
            alSet cm1.team_connections game_code (alSet tmap team_name connection_id),
          connection_registry :=
            alSet cm1.connection_registry connection_id (game_code, team_name, ws),
          last_ping := alSet cm1.last_ping connection_id now })

/-- `ConnectionManager.connect_manager` (lines 56-73). -/
def ConnectionManager.connect_manager (cm : ConnectionManager)
    (game_code : String) (ws : Nat) (now : Nat) : String × ConnectionManager :=
  let connection_id := mkManagerConnId game_code ws
  let cm1 :=
    if (alGet cm.active_connections game_code).isNone then
      { cm with active_connections := alSet cm.active_connections game_code [] }
    else cm
  (connection_id,
    { cm1 with
        active_connections :=
          alSet cm1.active_connections game_code
            (alSet ((alGet cm1.active_connections game_code).getD []) connection_id ws),
        manager_connections := alSet cm1.manager_connections game_code connection_id,
        connection_registry :=
          alSet cm1.connection_registry connection_id (game_code, "manager", ws),
        last_ping := alSet cm1.last_ping connection_id now })

/-- First block of `ConnectionManager.disconnect` (lines 82-88): remove the
connection from `active_connections[game_code]`, deleting the game entry
when it becomes empty. -/
def discActive (cm : ConnectionManager) (game_code connection_id : String) :
    ConnectionManager :=
  match alGet cm.active_connections game_code with
  | none => cm
  | some amap =>
    let amap2 := alErase amap connection_id
    if amap2 = [] then
      { cm with active_connections := alErase cm.active_connections game_code }
    else
      { cm with active_connections := alSet cm.active_connections game_code amap2 }

/-- Second block of `ConnectionManager.disconnect` (lines 90-96): delete the
registered team name from `team_connections[game_code]` whenever it is
present — regardless of which connection id it currently maps to — deleting
the game entry when it becomes empty. -/
def discTeam (cm : ConnectionManager) (game_code team_name : String) :
    ConnectionManager :=
  match alGet cm.team_connections game_code with
  | none => cm
  | some tmap =>
    if (alGet tmap team_name).isSome then
      let tmap2 := alErase tmap team_name
      if tmap2 = [] then
        { cm with team_connections := alErase cm.team_connections game_code }
      else
        { cm with team_connections := alSet cm.team_connections game_code tmap2 }
    else cm

/-- Third block of `ConnectionManager.disconnect` (lines 98-100): drop the
manager binding when it names this connection. -/
def discManager (cm : ConnectionManager) (game_code connection_id : String) :
    ConnectionManager :=
  if alGet cm.manager_connections game_code = some connection_id then
    { cm with manager_connections := alErase cm.manager_connections game_code }
  else cm

/-- `ConnectionManager.disconnect` (lines 75-106): idempotent removal of a
connection from every index, as the sequence of the three blocks above
followed by dropping the registry and heartbeat entries (lines 102-104). -/
def ConnectionManager.disconnect (cm : ConnectionManager) (connection_id : String) :
    ConnectionManager :=
  match alGet cm.connection_registry connection_id with
  | none => cm
  | some info =>
    let cm3 := discManager (discTeam (discActive cm info.1 connection_id)
      info.1 info.2.1) info.1 connection_id
    { cm3 with connection_registry := alErase cm3.connection_registry connection_id,
               last_ping := alErase cm3.last_ping connection_id }

/-- `ConnectionManager.get_teams_in_game` (lines 171-175). -/
def ConnectionManager.get_teams_in_game (cm : ConnectionManager)
    (game_code : String) : List String :=
  ((alGet cm.team_connections game_code).getD []).map Prod.fst

/-- `ConnectionManager.is_team_connected` (lines 183-186). -/
def ConnectionManager.is_team_connected (cm : ConnectionManager)
    (game_code team_name : String) : Bool :=
  match alGet cm.team_connections game_code with
  | none => false
  | some tmap => (alGet tmap team_name).isSome

/-- `ConnectionManager.update_ping` (lines 192-194). -/
def ConnectionManager.update_ping (cm : ConnectionManager)
    (connection_id : String) (now : Nat) : ConnectionManager :=
  { cm with last_ping := alSet cm.last_ping connection_id now }

/-- The stale set computed by `cleanup_stale_connections` (lines 199-203):
connection ids whose last ping is more than `timeout_seconds` old
(timestamps are `Nat` seconds; a ping in the future is never stale, matching
the negative-difference case in Python). -/
def staleConnections (cm : ConnectionManager) (now timeout_seconds : Nat) :
    List String :=
  (cm.last_ping.filter (fun p => decide (timeout_seconds < now - p.2))).map
    (fun p => p.1)

/-- `ConnectionManager.cleanup_stale_connections` (lines 196-207):
disconnect every stale connection, in index order. -/
def ConnectionManager.cleanup_stale_connections (cm : ConnectionManager)
    (now : Nat) (timeout_seconds : Nat) : ConnectionManager :=
  (staleConnections cm now timeout_seconds).foldl
    (fun acc cid => ConnectionManager.disconnect acc cid) cm

/-! `TeamHandler.handle_team_join`, from `handlers/team_handler.py`, and the
delivery path of a join request in `main.py` (`websocket_team_endpoint`,
lines 133-163), which calls `connect_team` *before* `handle_team_join`.
The DynamoDB store for this one game room is modelled as `Option GameRoom`
(the `get_game_room` / `save_game_room` collaborator). -/

/-- Combined state touched by a join request: the connection manager plus
the persisted room record for the addressed game code. -/
structure JoinWorld where
  cm : ConnectionManager
  room : Option TeamModels.GameRoom
deriving DecidableEq

/-- Python `str.upper()`, embedded as a character-wise map (kernel-reducible,
unlike `String.toUpper`). -/
def pyUpper (s : String) : String := String.mk (s.toList.map Char.toUpper)

/-- Python `str.strip()`: drop leading and trailing whitespace. -/
def pyStrip (s : String) : String :=
  String.mk
    (((s.toList.dropWhile Char.isWhitespace).reverse.dropWhile
      Char.isWhitespace).reverse)

/-- `TeamHandler.validate_team_name` (lines 22-35). -/
def validate_team_name (team_name : String) : Option String :=
  if pyStrip team_name = "" then some "Team name cannot be empty"
  else if 50 < (pyStrip team_name).length then
    some "Team name cannot exceed 50 characters"
  else if ['<', '>', '"', Char.ofNat 39, '&', '\n', '\r', '\t'].any
      (fun c => team_name.toList.contains c) then
    some "Team name contains forbidden characters"
  else none

/-- `TeamHandler.validate_game_code` (lines 37-45). -/
def validate_game_code (game_code : String) : Option String :=
  if ¬ (game_code.length = 6) then some "Game code must be exactly 6 characters"
  else if ¬ (game_code.toList.all Char.isAlphanum) then
    some "Game code must contain only letters and numbers"
  else none

/-- `TeamHandler.handle_team_join` (lines 47-135): validates the name and
code, rejects a duplicate name (against the connection manager's roster)
or a full room, loads or creates the room record, rejects a started game,
then appends the team and saves.  Broadcast side effects carry no state and
are omitted. -/
def handle_team_join (w : JoinWorld) (req_team_name req_game_code : String) :
    TeamModels.TeamJoinResponse × JoinWorld :=
  let team_name := pyStrip req_team_name
  let game_code := pyUpper req_game_code
  match validate_team_name team_name with
  | some err => ({ success := false, message := err }, w)
  | none =>
    match validate_game_code game_code with
    | some err => ({ success := false, message := err }, w)
    | none =>
      let existing_teams := w.cm.get_teams_in_game game_code
      if team_name ∈ existing_teams then
        ({ success := false, message := "Team name is already taken in this game" }, w)
      else if 8 ≤ existing_teams.length then
        ({ success := false, message := "Game is full" }, w)
      else
        let game_room :=
          (w.room).getD
            { game_code := game_code, teams := [],
              game_state := TeamModels.GameState.waiting, max_teams := 8 }
        if game_room.game_state ≠ TeamModels.GameState.waiting then
          ({ success := false, message := "Cannot join game - already in progress" }, w)
        else
          match game_room.add_team team_name with
          | none => ({ success := false, message := "Failed to add team to game room" }, w)
          | some room2 =>
            ({ success := true, message := "Successfully joined game",
               team_name := some team_name, teams_in_room := room2.teams,
               game_state := room2.game_state },
             { w with room := some room2 })

/-- The join delivery path of `main.py` (`websocket_team_endpoint`, lines
133-163): on a `team_join` message the endpoint first registers the
transport via `connect_team` (which upserts
`team_connections[game_code][team_name]`) and only then runs
`handle_team_join`; `none` models the `KeyError` path of `connect_team`. -/
def team_join_flow (w : JoinWorld) (path_game_code req_team_name req_game_code : String)
    (ws : Nat) (now : Nat) :
    Option (String × TeamModels.TeamJoinResponse × JoinWorld) :=
  let game_code := pyUpper path_game_code
  let team_name := pyStrip req_team_name
  match ConnectionManager.connect_team w.cm game_code team_name ws now with
  | none => none
  | some (connection_id, cm2) =>
    let res := handle_team_join { w with cm := cm2 } req_team_name req_game_code
    some (connection_id, res.1, res.2)

/-! Laws of the dict embedding. -/

theorem alGet_alSet_self {α : Type} (l : List (String × α)) (k : String) (v : α) :
    alGet (alSet l k v) k = some v := by
  induction l with
  | nil => simp [alSet, alGet]
  | cons p rest ih =>
    by_cases h : p.1 = k
    · simp [alSet, alGet, h]
    · simp [alSet, alGet, h, ih]

theorem alGet_alSet_ne {α : Type} (l : List (String × α)) (k k2 : String) (v : α)
    (h : k ≠ k2) : alGet (alSet l k v) k2 = alGet l k2 := by
  induction l with
  | nil => simp [alSet, alGet, h]
  | cons p rest ih =>
    by_cases hp : p.1 = k
    · simp [alSet, alGet, hp, h]
    · simp [alSet, alGet, hp, ih]

theorem alGet_alErase_self {α : Type} (l : List (String × α)) (k : String) :
    alGet (alErase l k) k = none := by
  induction l with
  | nil => rfl
  | cons p rest ih =>
    by_cases h : p.1 = k
    · simpa [alErase, alGet, h] using ih
    · simpa [alErase, alGet, h] using ih

theorem mem_keys_alSet {α : Type} (l : List (String × α)) (k : String) (v : α) :
    k ∈ (alSet l k v).map Prod.fst := by
  induction l with
  | nil => simp [alSet]
  | cons p rest ih =>
    by_cases h : p.1 = k
    · simp [alSet, h]
    · simp only [alSet, if_neg h, List.map_cons, List.mem_cons]
      exact Or.inr ih

theorem getLast?_setLast {α : Type} (l : List α) (a : α) :
    (setLast l a).getLast? = some a := by
  simp [setLast]

theorem dropLast_setLast {α : Type} (l : List α) (a : α) :
    (setLast l a).dropLast = l.dropLast := by
  simp [setLast, List.dropLast_concat]

/-! Round-state order, per §4.3 of the specification:
`NotStarted < SongPlaying < BuzzerLocked < Evaluating < Completed`. -/

/-- Position of a round state in the forward order of §4.3. -/
def roundRank : RoundState → Nat
  | RoundState.not_started => 0
  | RoundState.song_playing => 1
  | RoundState.buzzer_locked => 2
  | RoundState.evaluating => 3
  | RoundState.completed => 4

theorem roundRank_le_four (s : RoundState) : roundRank s ≤ 4 := by
  cases s <;> simp [roundRank]

/-- The round records of the addressed game move only forward between two
manager states: all rounds but the last are untouched, and the last round's
state never decreases in the §4.3 order. -/
def advancesRounds (rm rm2 : RoundManager) (game_code : String) : Prop :=
  ∀ game game2, alGet rm.games game_code = some game →
    alGet rm2.games game_code = some game2 →
    game2.rounds_history.dropLast = game.rounds_history.dropLast ∧
    ∀ r r2, game.rounds_history.getLast? = some r →
      game2.rounds_history.getLast? = some r2 →
      roundRank r.state ≤ roundRank r2.state

theorem advancesRounds_of_eq (rm : RoundManager) (game_code : String) :
    advancesRounds rm rm game_code := by
  intro game game2 hg hg2
  rw [hg] at hg2
  cases hg2
  exact ⟨rfl, fun r r2 hr hr2 => by rw [hr] at hr2; cases hr2; exact Nat.le_refl _⟩

/-! Claim C1: buzzer arbitration. -/

/-- C1: against a round in `SongPlaying`, the first `register_buzzer_press`
delivered is accepted (`True`), locks the round and sets `buzzer_winner` to
the pressing team; every press delivered after it returns `False` and
leaves the whole manager state — in particular `buzzer_winner` — unchanged
for the remainder of the round. -/
theorem buzzer_at_most_one_accepted
    (rm : RoundManager) (game_code team_name : String) (rt now : Nat)
    (game : GameData) (r : RoundData)
    (hg : alGet rm.games game_code = some game)
    (hr : game.rounds_history.getLast? = some r)
    (hs : r.state = RoundState.song_playing) :
    (RoundManager.register_buzzer_press rm game_code team_name rt now).1 = true ∧
    (∀ game2,
      alGet (RoundManager.register_buzzer_press rm game_code team_name rt now).2.games
          game_code = some game2 →
      ∃ r2, game2.rounds_history.getLast? = some r2 ∧
        r2.state = RoundState.buzzer_locked ∧
        r2.buzzer_winner = some team_name) ∧
    (∀ team2 rt2 now2,
      RoundManager.register_buzzer_press
          (RoundManager.register_buzzer_press rm game_code team_name rt now).2
          game_code team2 rt2 now2 =
        (false, (RoundManager.register_buzzer_press rm game_code team_name rt now).2)) := by
  refine ⟨?_, ?_, ?_⟩
  · simp [RoundManager.register_buzzer_press, hg, hr, hs]
  · intro game2 hg2
    simp only [RoundManager.register_buzzer_press, hg, hr, hs] at hg2
    simp only [ne_eq, not_true_eq_false, if_false, reduceCtorEq, ite_false] at hg2
    rw [alGet_alSet_self] at hg2
    cases hg2
    exact ⟨_, getLast?_setLast _ _, rfl, rfl⟩
  · intro team2 rt2 now2
    simp [RoundManager.register_buzzer_press, hg, hr, hs, alGet_alSet_self,
      getLast?_setLast]

def c1song : SongInfo := { id := 7, title := "T", artist := "A", youtube_id := "y" }

def c1round : RoundData :=
  { round_number := 1, state := RoundState.song_playing, song := some c1song,
    started_at := some 2 }

def c1game : GameData :=
  { game_code := "AB12CD", state := GameState.playing, current_round := 1,
    rounds_history := [c1round], created_at := 0 }

def c1rm : RoundManager := { games := [("AB12CD", c1game)] }

/-- Witness for C1 at a concrete one-round game. -/
theorem buzzer_at_most_one_accepted_witness :
    (RoundManager.register_buzzer_press c1rm "AB12CD" "Red" 120 3).1 = true ∧
    (∀ team2 rt2 now2,
      RoundManager.register_buzzer_press
          (RoundManager.register_buzzer_press c1rm "AB12CD" "Red" 120 3).2
          "AB12CD" team2 rt2 now2 =
        (false, (RoundManager.register_buzzer_press c1rm "AB12CD" "Red" 120 3).2)) := by
  have h := buzzer_at_most_one_accepted c1rm "AB12CD" "Red" 120 3 c1game c1round
    (by decide) (by decide) (by decide)
  exact ⟨h.1, h.2.2⟩

/-! Claim C2: forward-only round progression, operation by operation. -/

theorem advances_start_game (rm : RoundManager) (game_code : String) (now : Nat) :
    advancesRounds rm (RoundManager.start_game rm game_code now).2 game_code := by
  cases halg : alGet rm.games game_code with
  | none =>
    have heq : (RoundManager.start_game rm game_code now).2 = rm := by
      simp [RoundManager.start_game, halg]
    rw [heq]; exact advancesRounds_of_eq rm game_code
  | some game =>
    by_cases hw : game.state = GameState.waiting
    · intro game1 game2 hg hg2
      rw [halg] at hg; cases hg
      simp only [RoundManager.start_game, halg, hw, ne_eq, not_true_eq_false,
        if_false, ite_false] at hg2
      rw [alGet_alSet_self] at hg2
      cases hg2
      exact ⟨rfl, fun r r2 hr hr2 => by rw [hr] at hr2; cases hr2; exact Nat.le_refl _⟩
    · have heq : (RoundManager.start_game rm game_code now).2 = rm := by
        simp [RoundManager.start_game, halg, hw]
      rw [heq]; exact advancesRounds_of_eq rm game_code

theorem advances_register_buzzer_press (rm : RoundManager)
    (game_code team_name : String) (rt now : Nat) :
    advancesRounds rm
      (RoundManager.register_buzzer_press rm game_code team_name rt now).2 game_code := by
  cases halg : alGet rm.games game_code with
  | none =>
    have heq : (RoundManager.register_buzzer_press rm game_code team_name rt now).2 = rm := by
      simp [RoundManager.register_buzzer_press, halg]
    rw [heq]; exact advancesRounds_of_eq rm game_code
  | some game =>
    cases hlast : game.rounds_history.getLast? with
    | none =>
      have heq : (RoundManager.register_buzzer_press rm game_code team_name rt now).2 = rm := by
        simp [RoundManager.register_buzzer_press, halg, hlast]
      rw [heq]; exact advancesRounds_of_eq rm game_code
    | some cr =>
      by_cases hst : cr.state = RoundState.song_playing
      · intro game1 game2 hg hg2
        rw [halg] at hg; cases hg
        simp only [RoundManager.register_buzzer_press, halg, hlast, hst, ne_eq,
          not_true_eq_false, if_false, ite_false] at hg2
        rw [alGet_alSet_self] at hg2
        cases hg2
        refine ⟨dropLast_setLast _ _, fun r r2 hr hr2 => ?_⟩
        rw [hlast] at hr; cases hr
        rw [getLast?_setLast] at hr2; cases hr2
        rw [hst]; simp [roundRank]
      · have heq : (RoundManager.register_buzzer_press rm game_code team_name rt now).2 = rm := by
          simp [RoundManager.register_buzzer_press, halg, hlast, hst]
        rw [heq]; exact advancesRounds_of_eq rm game_code

theorem advances_submit_answer (rm : RoundManager) (game_code team_name : String)
    (song_name artist_name movie_tv_name : Option String) (now : Nat) :
    advancesRounds rm
      (RoundManager.submit_answer rm game_code team_name song_name artist_name
        movie_tv_name now).2 game_code := by
  cases halg : alGet rm.games game_code with
  | none =>
    have heq : (RoundManager.submit_answer rm game_code team_name song_name artist_name
        movie_tv_name now).2 = rm := by
      simp [RoundManager.submit_answer, halg]
    rw [heq]; exact advancesRounds_of_eq rm game_code
  | some game =>
    cases hlast : game.rounds_history.getLast? with
    | none =>
      have heq : (RoundManager.submit_answer rm game_code team_name song_name artist_name
          movie_tv_name now).2 = rm := by
        simp [RoundManager.submit_answer, halg, hlast]
      rw [heq]; exact advancesRounds_of_eq rm game_code
    | some cr =>
      by_cases hwin : cr.buzzer_winner = some team_name
      · by_cases hst : cr.state = RoundState.buzzer_locked
        · intro game1 game2 hg hg2
          rw [halg] at hg; cases hg
          simp only [RoundManager.submit_answer, halg, hlast, hwin, hst, ne_eq,
            not_true_eq_false, if_false, ite_false] at hg2
          rw [alGet_alSet_self] at hg2
          cases hg2
          refine ⟨dropLast_setLast _ _, fun r r2 hr hr2 => ?_⟩
          rw [hlast] at hr; cases hr
          rw [getLast?_setLast] at hr2; cases hr2
          rw [hst]; simp [roundRank]
        · have heq : (RoundManager.submit_answer rm game_code team_name song_name
              artist_name movie_tv_name now).2 = rm := by
            simp [RoundManager.submit_answer, halg, hlast, hwin, hst]
          rw [heq]; exact advancesRounds_of_eq rm game_code
      · have heq : (RoundManager.submit_answer rm game_code team_name song_name
            artist_name movie_tv_name now).2 = rm := by
          simp [RoundManager.submit_answer, halg, hlast, hwin]
        rw [heq]; exact advancesRounds_of_eq rm game_code

theorem advances_evaluate_answer (rm : RoundManager) (game_code : String)
    (sc ac mc : Bool) (now : Nat) :
    advancesRounds rm
      (RoundManager.evaluate_answer rm game_code sc ac mc now).2 game_code := by
  cases halg : alGet rm.games game_code with
  | none =>
    have heq : (RoundManager.evaluate_answer rm game_code sc ac mc now).2 = rm := by
      simp [RoundManager.evaluate_answer, halg]
    rw [heq]; exact advancesRounds_of_eq rm game_code
  | some game =>
    cases hlast : game.rounds_history.getLast? with
    | none =>
      have heq : (RoundManager.evaluate_answer rm game_code sc ac mc now).2 = rm := by
        simp [RoundManager.evaluate_answer, halg, hlast]
      rw [heq]; exact advancesRounds_of_eq rm game_code
    | some cr =>
      by_cases hst : cr.state = RoundState.evaluating
      · cases hwin : cr.buzzer_winner with
        | none =>
          have heq : (RoundManager.evaluate_answer rm game_code sc ac mc now).2 = rm := by
            simp [RoundManager.evaluate_answer, halg, hlast, hst, hwin]
          rw [heq]; exact advancesRounds_of_eq rm game_code
        | some winner =>
          intro game1 game2 hg hg2
          rw [halg] at hg; cases hg
          simp only [RoundManager.evaluate_answer, halg, hlast, hst, hwin, ne_eq,
            not_true_eq_false, if_false, ite_false] at hg2
          rw [alGet_alSet_self] at hg2
          cases hg2
          refine ⟨dropLast_setLast _ _, fun r r2 hr hr2 => ?_⟩
          rw [hlast] at hr; cases hr
          rw [getLast?_setLast] at hr2; cases hr2
          rw [hst]; simp [roundRank]
      · have heq : (RoundManager.evaluate_answer rm game_code sc ac mc now).2 = rm := by
          simp [RoundManager.evaluate_answer, halg, hlast, hst]
        rw [heq]; exact advancesRounds_of_eq rm game_code

theorem advances_handle_timeout (rm : RoundManager) (game_code : String) (now : Nat) :
    advancesRounds rm (RoundManager.handle_timeout rm game_code now).2 game_code := by
  cases halg : alGet rm.games game_code with
  | none =>
    have heq : (RoundManager.handle_timeout rm game_code now).2 = rm := by
      simp [RoundManager.handle_timeout, halg]
    rw [heq]; exact advancesRounds_of_eq rm game_code
  | some game =>
    cases hlast : game.rounds_history.getLast? with
    | none =>
      have heq : (RoundManager.handle_timeout rm game_code now).2 = rm := by
        simp [RoundManager.handle_timeout, halg, hlast]
      rw [heq]; exact advancesRounds_of_eq rm game_code
    | some cr =>
      cases hwin : cr.buzzer_winner with
      | some winner =>
        intro game1 game2 hg hg2
        rw [halg] at hg; cases hg
        simp only [RoundManager.handle_timeout, halg, hlast, hwin] at hg2
        rw [alGet_alSet_self] at hg2
        cases hg2
        refine ⟨dropLast_setLast _ _, fun r r2 hr hr2 => ?_⟩
        rw [hlast] at hr; cases hr
        rw [getLast?_setLast] at hr2; cases hr2
        exact roundRank_le_four _
      | none =>
        intro game1 game2 hg hg2
        rw [halg] at hg; cases hg
        simp only [RoundManager.handle_timeout, halg, hlast, hwin] at hg2
        rw [alGet_alSet_self] at hg2
        cases hg2
        refine ⟨dropLast_setLast _ _, fun r r2 hr hr2 => ?_⟩
        rw [hlast] at hr; cases hr
        rw [getLast?_setLast] at hr2; cases hr2
        exact roundRank_le_four _

theorem advances_end_game (rm : RoundManager) (game_code : String) (now : Nat) :
    advancesRounds rm (RoundManager.end_game rm game_code now).2 game_code := by
  cases halg : alGet rm.games game_code with
  | none =>
    have heq : (RoundManager.end_game rm game_code now).2 = rm := by
      simp [RoundManager.end_game, halg]
    rw [heq]; exact advancesRounds_of_eq rm game_code
  | some game =>
    intro game1 game2 hg hg2
    rw [halg] at hg; cases hg
    simp only [RoundManager.end_game, halg] at hg2
    rw [alGet_alSet_self] at hg2
    cases hg2
    exact ⟨rfl, fun r r2 hr hr2 => by rw [hr] at hr2; cases hr2; exact Nat.le_refl _⟩

theorem start_round_appends_only (rm : RoundManager) (game_code : String)
    (songResult : Option SongInfo) (now : Nat) (game game2 : GameData)
    (hg : alGet rm.games game_code = some game)
    (hg2 : alGet (RoundManager.start_round rm game_code songResult now).2.games
      game_code = some game2) :
    game2.rounds_history = game.rounds_history ∨
    ∃ nr, game2.rounds_history = game.rounds_history ++ [nr] ∧
      nr.state = RoundState.song_playing := by
  by_cases hpl : game.state = GameState.playing
  · by_cases hmax : game.max_rounds ≤ game.current_round
    · simp only [RoundManager.start_round, hg, hpl, hmax, ne_eq, not_true_eq_false,
        if_false, if_true, ite_true, ite_false] at hg2
      cases hg2; exact Or.inl rfl
    · cases hsong : songResult with
      | none =>
        simp only [RoundManager.start_round, hg, hpl, hmax, hsong, ne_eq,
          not_true_eq_false, if_false, ite_false] at hg2
        cases hg2; exact Or.inl rfl
      | some song =>
        simp only [RoundManager.start_round, hg, hpl, hmax, hsong, ne_eq,
          not_true_eq_false, if_false, ite_false] at hg2
        rw [alGet_alSet_self] at hg2
        cases hg2
        exact Or.inr ⟨_, rfl, rfl⟩
  · simp only [RoundManager.start_round, hg, hpl, ne_eq, not_false_eq_true,
      if_true, ite_true] at hg2
    cases hg2; exact Or.inl rfl

theorem evaluate_answer_rejected_in_song_playing (rm : RoundManager)
    (game_code : String) (sc ac mc : Bool) (now : Nat) (game : GameData)
    (r : RoundData) (hg : alGet rm.games game_code = some game)
    (hr : game.rounds_history.getLast? = some r)
    (hs : r.state = RoundState.song_playing) :
    RoundManager.evaluate_answer rm game_code sc ac mc now = (none, rm) := by
  simp [RoundManager.evaluate_answer, hg, hr, hs]

/-- C2: every `RoundManager` operation moves the targeted game's round
records only forward in the order `NotStarted < SongPlaying < BuzzerLocked
< Evaluating < Completed`: the six in-place operations leave all but the
last round untouched and never decrease the last round's state, and
`start_round` either changes nothing or appends a fresh `SongPlaying`
round, leaving every existing round record as it was; in particular
`evaluate_answer` against a `SongPlaying` round is rejected (`None`) and
leaves the whole manager — round record, its scores, and the cumulative
team scores — unchanged. -/
theorem round_state_forward_only (rm : RoundManager) (game_code team_name : String)
    (song_name artist_name movie_tv_name : Option String)
    (songResult : Option SongInfo) (sc ac mc : Bool) (rt now : Nat) :
    advancesRounds rm (RoundManager.start_game rm game_code now).2 game_code ∧
    advancesRounds rm
      (RoundManager.register_buzzer_press rm game_code team_name rt now).2 game_code ∧
    advancesRounds rm
      (RoundManager.submit_answer rm game_code team_name song_name artist_name
        movie_tv_name now).2 game_code ∧
    advancesRounds rm (RoundManager.evaluate_answer rm game_code sc ac mc now).2 game_code ∧
    advancesRounds rm (RoundManager.handle_timeout rm game_code now).2 game_code ∧
    advancesRounds rm (RoundManager.end_game rm game_code now).2 game_code ∧
    (∀ game game2, alGet rm.games game_code = some game →
      alGet (RoundManager.start_round rm game_code songResult now).2.games game_code =
        some game2 →
      game2.rounds_history = game.rounds_history ∨
      ∃ nr, game2.rounds_history = game.rounds_history ++ [nr] ∧
        nr.state = RoundState.song_playing) ∧
    (∀ game r, alGet rm.games game_code = some game →
      game.rounds_history.getLast? = some r → r.state = RoundState.song_playing →
      RoundManager.evaluate_answer rm game_code sc ac mc now = (none, rm)) :=
  ⟨advances_start_game rm game_code now,
   advances_register_buzzer_press rm game_code team_name rt now,
   advances_submit_answer rm game_code team_name song_name artist_name movie_tv_name now,
   advances_evaluate_answer rm game_code sc ac mc now,
   advances_handle_timeout rm game_code now,
   advances_end_game rm game_code now,
   fun game game2 hg hg2 =>
     start_round_appends_only rm game_code songResult now game game2 hg hg2,
   fun game r hg hr hs =>
     evaluate_answer_rejected_in_song_playing rm game_code sc ac mc now game r hg hr hs⟩

def c2song : SongInfo := { id := 3, title := "S", artist := "B", youtube_id := "z" }

def c2round : RoundData :=
  { round_number := 1, state := RoundState.song_playing, song := some c2song,
    started_at := some 2 }

def c2game : GameData :=
  { game_code := "AB12CD", state := GameState.playing, current_round := 1,
    rounds_history := [c2round], created_at := 0 }

def c2rm : RoundManager := { games := [("AB12CD", c2game)] }

/-- Witness for C2: `evaluate_answer` delivered against a concrete
`SongPlaying` round is rejected and changes nothing. -/
theorem round_state_forward_only_witness :
    RoundManager.evaluate_answer c2rm "AB12CD" true false true 6 = (none, c2rm) := by
  have h := round_state_forward_only c2rm "AB12CD" "Red" none none none
    (some c2song) true false true 120 6
  exact h.2.2.2.2.2.2.2 c2game c2round (by decide) (by decide) (by decide)

/-! Claim C3: winner determination in `end_game`. -/

theorem winner_foldl_keep (s : List (String × Int)) (acc : Option String × Int)
    (h : ∀ p ∈ s, p.2 ≤ acc.2) :
    s.foldl (fun acc p => if acc.2 < p.2 then (some p.1, p.2) else acc) acc = acc := by
  induction s generalizing acc with
  | nil => rfl
  | cons p rest ih =>
    rw [List.foldl_cons, if_neg (not_lt.mpr (h p (List.mem_cons_self p rest)))]
    exact ih acc (fun q hq => h q (List.mem_cons_of_mem p hq))

theorem winner_foldl_lt (s : List (String × Int)) (acc : Option String × Int) (v : Int)
    (hacc : acc.2 < v) (h : ∀ p ∈ s, p.2 < v) :
    (s.foldl (fun acc p => if acc.2 < p.2 then (some p.1, p.2) else acc) acc).2 < v := by
  induction s generalizing acc with
  | nil => exact hacc
  | cons p rest ih =>
    rw [List.foldl_cons]
    by_cases hc : acc.2 < p.2
    · rw [if_pos hc]
      exact ih _ (h p (List.mem_cons_self p rest))
        (fun q hq => h q (List.mem_cons_of_mem p hq))
    · rw [if_neg hc]
      exact ih acc hacc (fun q hq => h q (List.mem_cons_of_mem p hq))

/-- The `end_game` scan selects the earliest-inserted entry whose score
exceeds `-1` and every other entry, and is not overtaken by later entries
scoring no more than it. -/
theorem winnerScan_first_top (s1 s2 : List (String × Int)) (t : String) (v : Int)
    (hv : -1 < v) (h1 : ∀ p ∈ s1, p.2 < v) (h2 : ∀ p ∈ s2, p.2 ≤ v) :
    winnerScan (s1 ++ (t, v) :: s2) = (some t, v) := by
  unfold winnerScan
  rw [List.foldl_append, List.foldl_cons]
  rw [if_pos (winner_foldl_lt s1 ((none : Option String), (-1 : Int)) v hv h1)]
  exact winner_foldl_keep s2 (some t, v) h2

def c3game : GameData :=
  { game_code := "AB12CD", state := GameState.playing, current_round := 2,
    created_at := 0, team_scores := [("Red", 5), ("Blue", 5)] }

def c3rm : RoundManager := { games := [("AB12CD", c3game)] }

/-- C3 counterexample: with `Red` and `Blue` tied at the top (5 points
each), `end_game` declares `Red` — the earliest-inserted of the tied
teams — as winner instead of declaring no winner. -/
theorem end_game_tie_counterexample :
    alGet c3game.team_scores "Red" = alGet c3game.team_scores "Blue" ∧
    ((RoundManager.end_game c3rm "AB12CD" 9).1).map EndGameResult.winner =
      some (some "Red") := by decide

/-- C3 amended: `end_game` declares as winner the earliest-inserted team
whose cumulative score is strictly above `-1`, strictly above every team
inserted before it, and at least every team inserted after it — so a team
with a unique strictly-highest score above `-1` wins, but top-score ties
are broken in favour of the earliest-inserted tied team rather than
declaring no winner; the game itself moves to `Finished` with its scores
unchanged. -/
theorem end_game_first_highest_wins (rm : RoundManager) (game_code : String)
    (now : Nat) (game : GameData) (s1 s2 : List (String × Int)) (t : String) (v : Int)
    (hg : alGet rm.games game_code = some game)
    (hts : game.team_scores = s1 ++ (t, v) :: s2)
    (hv : -1 < v) (h1 : ∀ p ∈ s1, p.2 < v) (h2 : ∀ p ∈ s2, p.2 ≤ v) :
    ((RoundManager.end_game rm game_code now).1).map EndGameResult.winner =
      some (some t) ∧
    (∀ game2,
      alGet (RoundManager.end_game rm game_code now).2.games game_code = some game2 →
      game2.state = GameState.finished ∧ game2.team_scores = game.team_scores) := by
  constructor
  · simp only [RoundManager.end_game, hg, Option.map_some]
    rw [hts, winnerScan_first_top s1 s2 t v hv h1 h2]
    rfl
  · intro game2 hg2
    simp only [RoundManager.end_game, hg] at hg2
    rw [alGet_alSet_self] at hg2
    cases hg2
    exact ⟨rfl, rfl⟩

def c3wgame : GameData :=
  { game_code := "XY34ZW", state := GameState.playing, current_round := 3,
    created_at := 0, team_scores := [("Blue", 3), ("Red", 5), ("Green", 5)] }

def c3wrm : RoundManager := { games := [("XY34ZW", c3wgame)] }

/-- Witness for the amended C3: `Red` (5) beats `Blue` (3) and the
later-inserted tied `Green` (5). -/
theorem end_game_first_highest_wins_witness :
    ((RoundManager.end_game c3wrm "XY34ZW" 9).1).map EndGameResult.winner =
      some (some "Red") := by
  have h := end_game_first_highest_wins c3wrm "XY34ZW" 9 c3wgame
    [("Blue", 3)] [("Green", 5)] "Red" 5 (by decide) (by decide) (by decide)
    (by decide) (by decide)
  exact h.1

/-! Claim C4: answer timeout. -/

def c4song : SongInfo := { id := 4, title := "U", artist := "C", youtube_id := "w" }

def c4round : RoundData :=
  { round_number := 1, state := RoundState.buzzer_locked, song := some c4song,
    buzzer_winner := some "Red",
    buzzer_press := some { team_name := "Red", timestamp := 3, reaction_time_ms := 120 },
    started_at := some 2 }

def c4game : GameData :=
  { game_code := "AB12CD", state := GameState.playing, current_round := 1,
    rounds_history := [c4round], created_at := 0 }

def c4rm : RoundManager := { games := [("AB12CD", c4game)] }

/-- C4 counterexample: on answer timeout of a `BuzzerLocked` round with
winner `Red`, `handle_timeout` moves the round to `Completed` — not to
`Evaluating` — and records no (empty) answer for the winning team at all;
instead it books a `-2` buzzer-timeout penalty. -/
theorem handle_timeout_counterexample :
    ((alGet (RoundManager.handle_timeout c4rm "AB12CD" 50).2.games "AB12CD").bind
        (fun g => g.rounds_history.getLast?)).map
      (fun r => (r.state, r.team_answer)) = some (RoundState.completed, none) ∧
    ¬ (((alGet (RoundManager.handle_timeout c4rm "AB12CD" 50).2.games "AB12CD").bind
        (fun g => g.rounds_history.getLast?)).map RoundData.state =
          some RoundState.evaluating) := by decide

/-- C4 amended: on answer timeout of a round whose `buzzer_winner` is set
(the `BuzzerLocked` case), `handle_timeout` moves the round directly to
`Completed` (skipping `Evaluating`), records no answer (the round's
`team_answer` is left as it was, not set to an empty answer), books a
`buzzer_timeout` `RoundScore` of `-2` points for the winning team in the
round's score map, and subtracts 2 from that team's cumulative score
(initialising it to 0 if absent). -/
theorem handle_timeout_penalises_winner (rm : RoundManager) (game_code : String)
    (now : Nat) (game : GameData) (r : RoundData) (t : String)
    (hg : alGet rm.games game_code = some game)
    (hr : game.rounds_history.getLast? = some r)
    (hs : r.state = RoundState.buzzer_locked)
    (hw : r.buzzer_winner = some t) :
    (RoundManager.handle_timeout rm game_code now).1 = true ∧
    (∀ game2,
      alGet (RoundManager.handle_timeout rm game_code now).2.games game_code =
        some game2 →
      (∃ r2, game2.rounds_history.getLast? = some r2 ∧
        r2.state = RoundState.completed ∧
        r2.team_answer = r.team_answer ∧
        alGet r2.scores t =
          some { team_name := t, buzzer_timeout := true, points_earned := -2 }) ∧
      alGet game2.team_scores t = some ((alGet game.team_scores t).getD 0 - 2)) := by
  constructor
  · simp [RoundManager.handle_timeout, hg, hr, hw]
  · intro game2 hg2
    simp only [RoundManager.handle_timeout, hg, hr, hw] at hg2
    rw [alGet_alSet_self] at hg2
    cases hg2
    refine ⟨⟨_, getLast?_setLast _ _, rfl, rfl, alGet_alSet_self _ _ _⟩, ?_⟩
    cases hts : alGet game.team_scores t with
    | none => simp [hts, alGet_alSet_self]
    | some v => simp [hts, alGet_alSet_self]

/-- Witness for the amended C4 at the concrete `BuzzerLocked` round. -/
theorem handle_timeout_penalises_winner_witness :
    (RoundManager.handle_timeout c4rm "AB12CD" 50).1 = true := by
  have h := handle_timeout_penalises_winner c4rm "AB12CD" 50 c4game c4round "Red"
    (by decide) (by decide) (by decide) (by decide)
  exact h.1

/-! Claim C5: preconditions of `start_round`. -/

def c5song1 : SongInfo := { id := 11, title := "P", artist := "D", youtube_id := "q" }

def c5song2 : SongInfo := { id := 12, title := "Q", artist := "E", youtube_id := "r" }

def c5round : RoundData :=
  { round_number := 1, state := RoundState.song_playing, song := some c5song1,
    started_at := some 2 }

def c5game : GameData :=
  { game_code := "AB12CD", state := GameState.playing, current_round := 1,
    rounds_history := [c5round], created_at := 0 }

def c5rm : RoundManager := { games := [("AB12CD", c5game)] }

/-- C5 counterexample: with the most recent round still in `SongPlaying`,
`start_round` is not rejected — it succeeds and appends a second round. -/
theorem start_round_inflight_counterexample :
    (c5game.rounds_history.getLast?).map RoundData.state =
      some RoundState.song_playing ∧
    (RoundManager.start_round c5rm "AB12CD" (some c5song2) 50).1.isSome = true ∧
    (alGet (RoundManager.start_round c5rm "AB12CD" (some c5song2) 50).2.games
        "AB12CD").map (fun g => g.rounds_history.length) = some 2 := by decide

/-- C5 amended: `start_round` requires only that the game exists, is in
`Playing`, has `current_round < max_rounds`, and that a song is obtained;
there is no in-flight-round check, so a call while the most recent round is
still in `SongPlaying`, `BuzzerLocked` or `Evaluating` succeeds and appends
a new `SongPlaying` round numbered `current_round + 1`; when the game is
not `Playing` or the round limit is reached the call is rejected and
nothing changes. -/
theorem start_round_preconditions (rm : RoundManager) (game_code : String)
    (songResult : Option SongInfo) (now : Nat) (game : GameData) (song : SongInfo)
    (hg : alGet rm.games game_code = some game) :
    (game.state = GameState.playing → game.current_round < game.max_rounds →
      songResult = some song →
      ∃ nr, (RoundManager.start_round rm game_code songResult now).1 = some nr ∧
        nr.state = RoundState.song_playing ∧
        nr.round_number = game.current_round + 1 ∧
        nr.song = some song ∧
        (∀ game2,
          alGet (RoundManager.start_round rm game_code songResult now).2.games
              game_code = some game2 →
          game2.rounds_history = game.rounds_history ++ [nr] ∧
          game2.current_round = game.current_round + 1)) ∧
    (game.state ≠ GameState.playing →
      RoundManager.start_round rm game_code songResult now = (none, rm)) ∧
    (game.max_rounds ≤ game.current_round →
      RoundManager.start_round rm game_code songResult now = (none, rm)) := by
  refine ⟨?_, ?_, ?_⟩
  · intro hpl hlt hsong
    have hmax : ¬ game.max_rounds ≤ game.current_round := not_le.mpr hlt
    refine Exists.intro
      ({ round_number := game.current_round + 1, state := RoundState.song_playing,
         song := some song, started_at := some now } : RoundData)
      ⟨?_, rfl, rfl, rfl, ?_⟩
    · simp [RoundManager.start_round, hg, hpl, hmax, hsong]
    · intro game2 hg2
      simp only [RoundManager.start_round, hg, hpl, hmax, hsong, ne_eq,
        not_true_eq_false, if_false, ite_false] at hg2
      rw [alGet_alSet_self] at hg2
      cases hg2
      exact ⟨rfl, rfl⟩
  · intro hpl
    simp [RoundManager.start_round, hg, hpl]
  · intro hmax
    by_cases hpl : game.state = GameState.playing
    · simp [RoundManager.start_round, hg, hpl, hmax]
    · simp [RoundManager.start_round, hg, hpl]

/-- Witness for the amended C5: starting round 2 while round 1 is still
`SongPlaying` succeeds with a fresh `SongPlaying` round. -/
theorem start_round_preconditions_witness :
    (RoundManager.start_round c5rm "AB12CD" (some c5song2) 50).1.isSome = true := by
  have h := start_round_preconditions c5rm "AB12CD" (some c5song2) 50 c5game c5song2
    (by decide)
  obtain ⟨nr, hnr, -, -, -, -⟩ := h.1 (by decide) (by decide) rfl
  rw [hnr]
  rfl

/-! Claim C6: preconditions of `start_game`. -/

def c6game : GameData := { game_code := "AB12CD", created_at := 0 }

def c6rm : RoundManager := { games := [("AB12CD", c6game)] }

/-- C6 counterexample: a `Waiting` game with no teams at all (empty
cumulative-score map, no rounds) is started successfully — there is no
`NotEnoughTeams` rejection anywhere in `start_game`. -/
theorem start_game_no_team_check_counterexample :
    c6game.team_scores = [] ∧ c6game.state = GameState.waiting ∧
    ((RoundManager.start_game c6rm "AB12CD" 5).1).map GameData.state =
      some GameState.playing := by decide

/-- C6 amended: `start_game` transitions the game from `Waiting` to
`Playing` whenever the game exists and is in `Waiting`, with no
minimum-team check (`NotEnoughTeams` is never produced); when the game
exists but is not in `Waiting` it changes nothing and returns the game
as-is. -/
theorem start_game_preconditions (rm : RoundManager) (game_code : String)
    (now : Nat) (game : GameData) (hg : alGet rm.games game_code = some game) :
    (game.state = GameState.waiting →
      RoundManager.start_game rm game_code now =
        (some { game with state := GameState.playing, started_at := some now },
         { games := alSet rm.games game_code
             { game with state := GameState.playing, started_at := some now } })) ∧
    (game.state ≠ GameState.waiting →
      RoundManager.start_game rm game_code now = (some game, rm)) := by
  constructor
  · intro hw
    simp [RoundManager.start_game, hg, hw]
  · intro hw
    simp [RoundManager.start_game, hg, hw]

/-- Witness for the amended C6: the team-less `Waiting` game starts. -/
theorem start_game_preconditions_witness :
    ((RoundManager.start_game c6rm "AB12CD" 5).1).map GameData.state =
      some GameState.playing := by
  have h := (start_game_preconditions c6rm "AB12CD" 5 c6game (by decide)).1 (by decide)
  rw [h]
  rfl

/-! Claim C7: `start_round` is fail-closed on song selection. -/

theorem start_round_none_is_noop (rm : RoundManager) (game_code : String) (now : Nat) :
    RoundManager.start_round rm game_code none now = (none, rm) := by
  unfold RoundManager.start_round
  cases halg : alGet rm.games game_code with
  | none => rfl
  | some game =>
    by_cases hpl : game.state = GameState.playing
    · by_cases hmax : game.max_rounds ≤ game.current_round <;> simp [hpl, hmax]
    · simp [hpl]

/-- C7: whenever the song-selection collaborator yields no song — transport
error, non-200 status, or an empty result list — `start_round` fails with
`None` and the whole manager state is exactly as before the call: no
`RoundRecord` is appended, `current_round` is not incremented, and the
round history is untouched. -/
theorem start_round_fail_closed (rm : RoundManager) (game_code : String) (now : Nat)
    (status : Nat) (hstatus : status ≠ 200) (songs : List SongInfo) :
    RoundManager.start_round rm game_code
      (select_random_song SelectorResponse.network_error) now = (none, rm) ∧
    RoundManager.start_round rm game_code
      (select_random_song (SelectorResponse.http status songs)) now = (none, rm) ∧
    RoundManager.start_round rm game_code
      (select_random_song (SelectorResponse.http 200 [])) now = (none, rm) ∧
    RoundManager.start_round rm game_code none now = (none, rm) := by
  have h200 : select_random_song (SelectorResponse.http status songs) = none := by
    simp [select_random_song, hstatus]
  refine ⟨?_, ?_, ?_, ?_⟩
  · exact start_round_none_is_noop rm game_code now
  · rw [h200]; exact start_round_none_is_noop rm game_code now
  · exact start_round_none_is_noop rm game_code now
  · exact start_round_none_is_noop rm game_code now

def c7song : SongInfo := { id := 21, title := "V", artist := "F", youtube_id := "u" }

def c7game : GameData :=
  { game_code := "AB12CD", state := GameState.playing, current_round := 0,
    created_at := 0 }

def c7rm : RoundManager := { games := [("AB12CD", c7game)] }

/-- Witness for C7: a 500 response (with songs in the body) yields no song
and leaves the concrete playing game untouched. -/
theorem start_round_fail_closed_witness :
    RoundManager.start_round c7rm "AB12CD"
      (select_random_song (SelectorResponse.http 500 [c7song])) 3 = (none, c7rm) :=
  (start_round_fail_closed c7rm "AB12CD" 3 500 (by decide) [c7song]).2.1

/-! Claim C10: points awarded by `evaluate_answer`. -/

/-- C10: evaluating a round in `Evaluating` with a buzz winner awards
10 points for `song_correct` plus 5 for `artist_correct` plus 5 for
`movie_tv_correct` (so between 0 and 20), returns that `RoundScore` for the
winner, records it in the round's score map, and increases the winner's
cumulative team score by exactly `points_earned` (from 0 if the team had no
score yet). -/
theorem evaluate_answer_awards_category_points (rm : RoundManager)
    (game_code : String) (sc ac mc : Bool) (now : Nat) (game : GameData)
    (r : RoundData) (t : String)
    (hg : alGet rm.games game_code = some game)
    (hr : game.rounds_history.getLast? = some r)
    (hs : r.state = RoundState.evaluating)
    (hw : r.buzzer_winner = some t) :
    (RoundManager.evaluate_answer rm game_code sc ac mc now).1 =
      some { team_name := t, song_correct := sc, artist_correct := ac,
             movie_tv_correct := mc,
             points_earned := (if sc then (10 : Int) else 0) +
               (if ac then 5 else 0) + (if mc then 5 else 0) } ∧
    (0 ≤ (if sc then (10 : Int) else 0) + (if ac then 5 else 0) +
        (if mc then 5 else 0) ∧
      (if sc then (10 : Int) else 0) + (if ac then 5 else 0) +
        (if mc then 5 else 0) ≤ 20) ∧
    (∀ game2,
      alGet (RoundManager.evaluate_answer rm game_code sc ac mc now).2.games
          game_code = some game2 →
      alGet game2.team_scores t =
        some ((alGet game.team_scores t).getD 0 +
          ((if sc then (10 : Int) else 0) + (if ac then 5 else 0) +
            (if mc then 5 else 0))) ∧
      ∃ r2, game2.rounds_history.getLast? = some r2 ∧
        r2.state = RoundState.completed ∧
        alGet r2.scores t =
          some { team_name := t, song_correct := sc, artist_correct := ac,
                 movie_tv_correct := mc,
                 points_earned := (if sc then (10 : Int) else 0) +
                   (if ac then 5 else 0) + (if mc then 5 else 0) }) := by
  refine ⟨?_, ?_, ?_⟩
  · simp [RoundManager.evaluate_answer, hg, hr, hs, hw]
  · cases sc <;> cases ac <;> cases mc <;> exact ⟨by decide, by decide⟩
  · intro game2 hg2
    simp only [RoundManager.evaluate_answer, hg, hr, hs, hw, ne_eq,
      not_true_eq_false, if_false, ite_false] at hg2
    rw [alGet_alSet_self] at hg2
    cases hg2
    refine ⟨?_, _, getLast?_setLast _ _, rfl, alGet_alSet_self _ _ _⟩
    cases hts : alGet game.team_scores t with
    | none => simp [hts, alGet_alSet_self]
    | some v => simp [hts, alGet_alSet_self]

def c10song : SongInfo := { id := 31, title := "W", artist := "G", youtube_id := "v" }

def c10round : RoundData :=
  { round_number := 1, state := RoundState.evaluating, song := some c10song,
    buzzer_winner := some "Red",
    team_answer := some { team_name := "Red", song_name := some "W",
                          submitted_at := 5 },
    started_at := some 2 }

def c10game : GameData :=
  { game_code := "AB12CD", state := GameState.playing, current_round := 1,
    rounds_history := [c10round], created_at := 0 }

def c10rm : RoundManager := { games := [("AB12CD", c10game)] }

/-- Witness for C10: correct song and movie but wrong artist earn 15. -/
theorem evaluate_answer_awards_category_points_witness :
    ((RoundManager.evaluate_answer c10rm "AB12CD" true false true 6).1).map
      RoundScore.points_earned = some 15 := by
  have h := evaluate_answer_awards_category_points c10rm "AB12CD" true false true 6
    c10game c10round "Red" (by decide) (by decide) (by decide) (by decide)
  rw [h.1]
  rfl

/-! Claim C8: duplicate team-name joins. -/

def c8cm : ConnectionManager :=
  { active_connections := [("AB12CD", [("AB12CD_Red_1", 1)])],
    team_connections := [("AB12CD", [("Red", "AB12CD_Red_1")])],
    connection_registry := [("AB12CD_Red_1", ("AB12CD", "Red", 1))],
    manager_connections := [],
    last_ping := [("AB12CD_Red_1", 0)] }

def c8w : JoinWorld :=
  { cm := c8cm,
    room := some { game_code := "AB12CD", teams := ["Red"],
                   game_state := TeamModels.GameState.waiting } }

/-- C8 counterexample: a second joiner named `Red` into a `Waiting` room
that already holds a live `Red` is rejected, but the delivery path has
already replaced the existing team's connection mapping
(`team_connections["AB12CD"]["Red"]` now names the new transport, not the
old one) before the rejection. -/
theorem duplicate_join_counterexample :
    ((team_join_flow c8w "AB12CD" "Red" "AB12CD" 7 100).map
      (fun res => (res.2.1.success,
        (alGet res.2.2.cm.team_connections "AB12CD").getD [] |>.map Prod.snd))) =
      some (false, ["AB12CD_Red_7"]) ∧
    ((alGet c8w.cm.team_connections "AB12CD").getD [] |>.map Prod.snd) =
      ["AB12CD_Red_1"] ∧
    ("AB12CD_Red_7" : String) ≠ "AB12CD_Red_1" := by decide

/-- C8 amended: a join request carrying a team name already live in the
room always fails (with the duplicate-name rejection) and leaves the
persisted room record — hence its team list — unchanged, so at most one of
two same-name joiners ever succeeds; however the delivery path registers
the transport before validating, so the existing team's entry in
`team_connections` is overwritten with the new connection id rather than
being left untouched. -/
theorem duplicate_join_always_rejected (w : JoinWorld) (game_code team_name : String)
    (ws now : Nat) (amap : List (String × Nat)) (tmap : List (String × String))
    (old : String)
    (hnorm1 : pyStrip team_name = team_name) (hnorm2 : pyUpper game_code = game_code)
    (hname : validate_team_name team_name = none)
    (hcode : validate_game_code game_code = none)
    (hact : alGet w.cm.active_connections game_code = some amap)
    (htc : alGet w.cm.team_connections game_code = some tmap)
    (hold : alGet tmap team_name = some old) :
    ∃ resp w2,
      team_join_flow w game_code team_name game_code ws now =
        some (mkTeamConnId game_code team_name ws, resp, w2) ∧
      resp.success = false ∧
      resp.message = "Team name is already taken in this game" ∧
      w2.room = w.room ∧
      ∃ tmap2, alGet w2.cm.team_connections game_code = some tmap2 ∧
        alGet tmap2 team_name = some (mkTeamConnId game_code team_name ws) := by
  have hmem : team_name ∈
      (alSet tmap team_name (mkTeamConnId game_code team_name ws)).map Prod.fst :=
    mem_keys_alSet tmap team_name (mkTeamConnId game_code team_name ws)
  refine ⟨{ success := false, message := "Team name is already taken in this game" },
    { cm :=
        { w.cm with
            active_connections := alSet w.cm.active_connections game_code
              (alSet amap (mkTeamConnId game_code team_name ws) ws),
            team_connections := alSet w.cm.team_connections game_code
              (alSet tmap team_name (mkTeamConnId game_code team_name ws)),
            connection_registry := alSet w.cm.connection_registry
              (mkTeamConnId game_code team_name ws) (game_code, team_name, ws),
            last_ping := alSet w.cm.last_ping (mkTeamConnId game_code team_name ws) now },
      room := w.room }, ?_, rfl, rfl, rfl,
    alSet tmap team_name (mkTeamConnId game_code team_name ws),
    alGet_alSet_self _ _ _, alGet_alSet_self _ _ _⟩
  simp [team_join_flow, ConnectionManager.connect_team, handle_team_join,
    ConnectionManager.get_teams_in_game, hnorm1, hnorm2, hname, hcode, hact, htc,
    alGet_alSet_self, hmem]

/-- Witness for the amended C8 at the concrete world with a live `Red`. -/
theorem duplicate_join_always_rejected_witness :
    (team_join_flow c8w "AB12CD" "Red" "AB12CD" 7 100).map
      (fun res => res.2.1.success) = some false := by
  obtain ⟨resp, w2, hflow, hsucc, -, -, -⟩ :=
    duplicate_join_always_rejected c8w "AB12CD" "Red" 7 100
      [("AB12CD_Red_1", 1)] [("Red", "AB12CD_Red_1")] "AB12CD_Red_1"
      (by decide) (by decide) (by decide) (by decide) (by decide) (by decide)
      (by decide)
  rw [hflow]
  simp [hsucc]

/-! Claim C9: stale-connection reaping. -/

theorem discTeam_active (cm : ConnectionManager) (g t : String) :
    (discTeam cm g t).active_connections = cm.active_connections := by
  unfold discTeam
  split
  · rfl
  · dsimp only
    split
    · split <;> rfl
    · rfl

theorem discManager_active (cm : ConnectionManager) (g cid : String) :
    (discManager cm g cid).active_connections = cm.active_connections := by
  unfold discManager
  split <;> rfl

theorem discManager_team (cm : ConnectionManager) (g cid : String) :
    (discManager cm g cid).team_connections = cm.team_connections := by
  unfold discManager
  split <;> rfl

theorem discTeam_not_connected (cm : ConnectionManager) (g t : String) :
    (discTeam cm g t).is_team_connected g t = false := by
  unfold discTeam
  cases htc : alGet cm.team_connections g with
  | none =>
    dsimp only
    simp [ConnectionManager.is_team_connected, htc]
  | some tmap =>
    dsimp only
    by_cases hsome : (alGet tmap t).isSome = true
    · rw [if_pos hsome]
      by_cases hemp : alErase tmap t = []
      · rw [if_pos hemp]
        simp [ConnectionManager.is_team_connected, alGet_alErase_self]
      · rw [if_neg hemp]
        simp [ConnectionManager.is_team_connected, alGet_alSet_self, alGet_alErase_self]
    · rw [if_neg hsome]
      simp [ConnectionManager.is_team_connected, htc]
      cases halg : alGet tmap t with
      | none => rfl
      | some v => exact absurd (by rw [halg]; rfl) hsome

theorem discActive_removed (cm : ConnectionManager) (g cid : String) :
    ∀ amap2, alGet (discActive cm g cid).active_connections g = some amap2 →
      alGet amap2 cid = none := by
  intro amap2 h
  unfold discActive at h
  cases halg : alGet cm.active_connections g with
  | none =>
    rw [halg] at h
    dsimp only at h
    rw [halg] at h
    cases h
  | some amap =>
    rw [halg] at h
    dsimp only at h
    by_cases hemp : alErase amap cid = []
    · rw [if_pos hemp] at h
      dsimp only at h
      rw [alGet_alErase_self] at h
      cases h
    · rw [if_neg hemp] at h
      dsimp only at h
      rw [alGet_alSet_self] at h
      cases h
      exact alGet_alErase_self _ _

theorem disconnect_removes (cm : ConnectionManager) (cid g t : String) (ws : Nat)
    (hreg : alGet cm.connection_registry cid = some (g, t, ws)) :
    alGet (cm.disconnect cid).connection_registry cid = none ∧
    alGet (cm.disconnect cid).last_ping cid = none ∧
    (cm.disconnect cid).is_team_connected g t = false ∧
    (∀ amap2, alGet (cm.disconnect cid).active_connections g = some amap2 →
      alGet amap2 cid = none) := by
  unfold ConnectionManager.disconnect
  rw [hreg]
  dsimp only
  refine ⟨alGet_alErase_self _ _, alGet_alErase_self _ _, ?_, ?_⟩
  · unfold ConnectionManager.is_team_connected
    dsimp only
    rw [discManager_team]
    have h2 := discTeam_not_connected (discActive cm g cid) g t
    unfold ConnectionManager.is_team_connected at h2
    exact h2
  · intro amap2 h
    rw [discManager_active, discTeam_active] at h
    exact discActive_removed cm g cid amap2 h

def c9cm : ConnectionManager :=
  { active_connections := [("AB12CD", [("AB12CD_Red_1", 1)])],
    team_connections := [("AB12CD", [("Red", "AB12CD_Red_1")])],
    connection_registry := [("AB12CD_Red_1", ("AB12CD", "Red", 1))],
    manager_connections := [],
    last_ping := [("AB12CD_Red_1", 0)] }

/-- C9 counterexample: reaping team `Red` whose heartbeat is stale erases
the team from every connection-manager index — the roster becomes empty and
no `Disconnected` marker of any kind is kept — exactly as a manager
connection would be discarded, instead of marking the team `Disconnected`
while keeping its identity. -/
theorem reap_removes_team_counterexample :
    ConnectionManager.is_team_connected c9cm "AB12CD" "Red" = true ∧
    ConnectionManager.get_teams_in_game
      (ConnectionManager.cleanup_stale_connections c9cm 1000 600) "AB12CD" = [] ∧
    (ConnectionManager.cleanup_stale_connections c9cm 1000 600).team_connections = [] ∧
    alGet (ConnectionManager.cleanup_stale_connections c9cm 1000 600).connection_registry
      "AB12CD_Red_1" = none := by decide

/-- C9 amended: reaping a stale connection (heartbeat older than the
threshold) removes it from every connection-manager index regardless of
role: the connection registry, the heartbeat map, the per-game active map,
and — for the registered team name — the `team_connections` roster, with no
`Disconnected` marking kept anywhere; team and manager connections are
discarded identically.  (Game-side state — cumulative scores and round
history in the `RoundManager` — lives outside the connection manager and is
not touched by reaping.) -/
theorem reap_stale_discards_connection (cm : ConnectionManager)
    (now timeout_seconds : Nat) (cid g t : String) (ws : Nat)
    (hstale : staleConnections cm now timeout_seconds = [cid])
    (hreg : alGet cm.connection_registry cid = some (g, t, ws)) :
    alGet (cm.cleanup_stale_connections now timeout_seconds).connection_registry
      cid = none ∧
    alGet (cm.cleanup_stale_connections now timeout_seconds).last_ping cid = none ∧
    (cm.cleanup_stale_connections now timeout_seconds).is_team_connected g t = false ∧
    (∀ amap2,
      alGet (cm.cleanup_stale_connections now timeout_seconds).active_connections g =
        some amap2 →
      alGet amap2 cid = none) := by
  have hclean : cm.cleanup_stale_connections now timeout_seconds = cm.disconnect cid := by
    unfold ConnectionManager.cleanup_stale_connections
    rw [hstale]
    rfl
  rw [hclean]
  exact disconnect_removes cm cid g t ws hreg

/-- Witness for the amended C9: after the cleanup pass, the stale `Red`
connection is gone from the roster. -/
theorem reap_stale_discards_connection_witness :
    (ConnectionManager.cleanup_stale_connections c9cm 1000 600).is_team_connected
      "AB12CD" "Red" = false := by
  have h := reap_stale_discards_connection c9cm 1000 600 "AB12CD_Red_1" "AB12CD"
    "Red" 1 (by decide) (by decide)
  exact h.2.2.1

end SoundClash
